import Mathlib

/-!
Verification of the dual-destination log writer in `sr620.py`.

The development shallowly embeds the `DualFileData` class (state flags, the
dual-write `write` path, file rotation, and the sync/delete worker bodies) as
pure Lean functions over an explicit system state, together with the small
slice of `SR620` (`writevalue`) needed for the error-handling claims.
Filesystem folders are association lists from file names to file contents
(lists of text lines); the wall clock, medium presence and fault injection for
the fallible I/O calls are passed in an explicit environment.
-/

namespace SR620V

/-- The `StateFlag` enumeration (one constructor per single-bit member;
`NONE` is the empty `FlagSet` below). -/
inductive Flag where
  | SERIAL
  | USB
  | DUAL_WRITE
  | SYNCING_FILES
  | DELETING_FILES
  | BUFFERING
deriving DecidableEq, Repr, Fintype

/-- A value of the Python `Flag`-derived `StateFlag` class: a set of the six
member bits, represented as one Bool per member. -/
structure FlagSet where
  serial : Bool
  usb : Bool
  dual_write : Bool
  syncing_files : Bool
  deleting_files : Bool
  buffering : Bool
deriving DecidableEq, Repr, Fintype

/-- `StateFlag.NONE`. -/
def noneF : FlagSet := ⟨false, false, false, false, false, false⟩

def serialF : FlagSet := ⟨true, false, false, false, false, false⟩

def usbF : FlagSet := ⟨false, true, false, false, false, false⟩

def dualF : FlagSet := ⟨false, false, true, false, false, false⟩

def syncingF : FlagSet := ⟨false, false, false, true, false, false⟩

def deletingF : FlagSet := ⟨false, false, false, false, true, false⟩

def bufferingF : FlagSet := ⟨false, false, false, false, false, true⟩

/-- Python `a | b` on `StateFlag` values. -/
def FlagSet.union (a b : FlagSet) : FlagSet :=
  ⟨a.serial || b.serial, a.usb || b.usb, a.dual_write || b.dual_write,
   a.syncing_files || b.syncing_files, a.deleting_files || b.deleting_files,
   a.buffering || b.buffering⟩

/-- Python `a in b` on `StateFlag` values: every bit of `a` is set in `b`. -/
def FlagSet.subset (a b : FlagSet) : Bool :=
  (!a.serial || b.serial) && (!a.usb || b.usb) && (!a.dual_write || b.dual_write) &&
  (!a.syncing_files || b.syncing_files) && (!a.deleting_files || b.deleting_files) &&
  (!a.buffering || b.buffering)

/-- Set difference on flag sets (used only to state the characterisation of
`_clearflag`; the embedding of `_clearflag` itself is the literal loop). -/
def FlagSet.diff (a b : FlagSet) : FlagSet :=
  ⟨a.serial && !b.serial, a.usb && !b.usb, a.dual_write && !b.dual_write,
   a.syncing_files && !b.syncing_files, a.deleting_files && !b.deleting_files,
   a.buffering && !b.buffering⟩

/-- Whether two flag sets share at least one member bit. -/
def FlagSet.interNonempty (a b : FlagSet) : Bool :=
  (a.serial && b.serial) || (a.usb && b.usb) || (a.dual_write && b.dual_write) ||
  (a.syncing_files && b.syncing_files) || (a.deleting_files && b.deleting_files) ||
  (a.buffering && b.buffering)

/-- Membership of one member bit in a flag set (`f in flag` for a single-bit
`f`, as tested inside the `_clearflag` loop). -/
def Flag.isIn (f : Flag) (s : FlagSet) : Bool :=
  match f with
  | .SERIAL => s.serial
  | .USB => s.usb
  | .DUAL_WRITE => s.dual_write
  | .SYNCING_FILES => s.syncing_files
  | .DELETING_FILES => s.deleting_files
  | .BUFFERING => s.buffering

/-- `state &= ~f` for a single member bit `f`. -/
def FlagSet.clearOne (s : FlagSet) (f : Flag) : FlagSet :=
  match f with
  | .SERIAL => { s with serial := false }
  | .USB => { s with usb := false }
  | .DUAL_WRITE => { s with dual_write := false }
  | .SYNCING_FILES => { s with syncing_files := false }
  | .DELETING_FILES => { s with deleting_files := false }
  | .BUFFERING => { s with buffering := false }

/-- `for f in StateFlag` iteration order, with `NONE` skipped by the
`continue` in the source loop. -/
def memberFlags : List Flag :=
  [.SERIAL, .USB, .DUAL_WRITE, .SYNCING_FILES, .DELETING_FILES, .BUFFERING]

/-- `DualFileData._notify_newstate`: invokes every registered listener, in
registration order, with no arguments.  The result is the list of listeners
invoked (one entry per callback made). -/
def notify_newstate (listeners : List Nat) : List Nat :=
  listeners

/-- `DualFileData._setflag`: if `flag in self._state`, return without any
notification; otherwise union the flag in and notify once.  The second
component is the number of `_notify_newstate` events produced. -/
def setflag (state flag : FlagSet) : FlagSet × Nat :=
  if flag.subset state then (state, 0)
  else (state.union flag, 1)

/-- One iteration of the loop body of `DualFileData._clearflag`. -/
def clearflagStep (flag : FlagSet) (acc : FlagSet × Bool) (f : Flag) : FlagSet × Bool :=
  if f.isIn flag && f.isIn acc.1 then (acc.1.clearOne f, true) else acc

/-- `DualFileData._clearflag`: loop over the member flags, dropping each one
that is both requested and currently set, then notify once if anything was
dropped.  The second component is the number of `_notify_newstate` events. -/
def clearflag (state flag : FlagSet) : FlagSet × Nat :=
  let r := memberFlags.foldl (clearflagStep flag) (state, false)
  (r.1, if r.2 then 1 else 0)

set_option maxRecDepth 100000

set_option maxHeartbeats 2000000

theorem setflag_fst (s f : FlagSet) : (setflag s f).1 = s.union f := by
  revert s f; decide

theorem clearflag_fst (s f : FlagSet) : (clearflag s f).1 = s.diff f := by
  revert s f; decide

/-! ## Filesystem model

A folder is an association list from file names to file contents; a file's
content is its list of lines (each line is written newline-terminated). -/

/-- One folder of the filesystem. -/
abbrev Folder : Type := List (String × List String)

/-- Content of the named file, if it exists in the folder. -/
def Folder.lookup (d : Folder) (n : String) : Option (List String) :=
  match d with
  | [] => none
  | (m, c) :: t => if m = n then some c else Folder.lookup t n

/-- Overwrite (or create) the named file with the given content
(`shutil.copyfile` truncates the target). -/
def Folder.setEntry (d : Folder) (n : String) (c : List String) : Folder :=
  match d with
  | [] => [(n, c)]
  | (m, c0) :: t => if m = n then (m, c) :: t else (m, c0) :: Folder.setEntry t n c

/-- Append lines to the named file, creating it when absent
(`open(..., 'a')` followed by `.write` calls). -/
def Folder.appendTo (d : Folder) (n : String) (ls : List String) : Folder :=
  d.setEntry n (((d.lookup n).getD []) ++ ls)

/-- `open(..., 'a')` with no writes yet: create the file empty when absent,
leave it untouched when present. -/
def Folder.touch (d : Folder) (n : String) : Folder :=
  match d.lookup n with
  | some _ => d
  | none => d ++ [(n, [])]

/-- `os.remove` of the named file. -/
def Folder.removeEntry (d : Folder) (n : String) : Folder :=
  let l : List (String × List String) := d
  l.filter (fun e => e.1 != n)

/-- `os.path.getsize` of a file given its lines: every line is stored
newline-terminated. -/
def fileSize (lines : List String) : Nat :=
  (lines.map (fun l => l.data.length + 1)).sum

/-- Value of `int(..)` on a string of decimal digits, given as characters. -/
def digitsVal (cs : List Char) : Nat :=
  cs.foldl (fun a c => a * 10 + (c.toNat - 48)) 0

/-- Model of `re.search(self.data_file_pattern, name)` with pattern
`^<pre>[0-9]{11}.txt$`: the literal prefix, eleven decimal digits, one
arbitrary character (the unescaped dot of the source pattern), then `txt`. -/
def matchesPattern (pre name : String) : Bool :=
  let p := pre.data
  let n := name.data
  p.isPrefixOf n &&
    (let rest := n.drop p.length
     rest.length == 15 && (rest.take 11).all Char.isDigit && rest.drop 12 == "txt".data)

/-- `int(f.name[-11:-8])`: the three day-of-year digits of a data-file name
(characters 11 through 9 from the end). -/
def fileDoy (name : String) : Int :=
  ((digitsVal ((name.data.drop (name.data.length - 11)).take 3) : Nat) : Int)

/-! ## System state, environment and configuration -/

/-- Observable events of a run, recorded in order of occurrence. -/
inductive Ev where
  | openedPrimary (name : String)
  | openedSecondary (name : String)
  | closedPrimary (name : String)
  | closedSecondary (name : String)
  | syncTriggered
  | startedSyncThread
  | deleteTriggered
  | startedDeleteThread
  | attemptedSecondaryWrite
  | copiedFile (name : String)
  | deletedFile (name : String)
  | bufferingOn
  | bufferingOff
deriving DecidableEq, Repr

/-- The mutable state of a `DualFileData` object together with the two
folders it works on.  File handles are modelled by the basename of the open
file (`None` stays `none`); the trace records the observable events. -/
structure Sys where
  flags : FlagSet
  fprimary : Option String
  fsecondary : Option String
  fdoy : Nat
  databuffer : List String
  sync_thread : Bool
  delete_thread : Bool
  primaryFS : Folder
  secondaryFS : Folder
  trace : List Ev
deriving DecidableEq, Repr

/-- Constructor arguments of `DualFileData` that the embedded operations
consume (folder paths are left abstract: only presence of the secondary
folder matters, and it lives in `Env`). -/
structure Config where
  prefixStr : String
  max_history : Int
  max_sync : Int
deriving DecidableEq, Repr

/-- Ambient inputs of one call: the wall clock (`datetime.utcnow()`), whether
the secondary folder currently exists, and fault injection for the two
fallible I/O sites the claims exercise. -/
structure Env where
  /-- `int(dt.strftime("%j"))`. -/
  doy : Nat
  /-- `dt.strftime("%Y%j%H%M")`, the 11-digit stamp of `filename`. -/
  stamp : String
  /-- `str(datetime.utcnow().timestamp())`, the epoch timestamp of a record. -/
  ts : String
  /-- `DualFileData._exists(self.secondary_data_folder)`. -/
  mediumPresent : Bool
  /-- Whether `open(primary_folder/..., 'a')` succeeds this call. -/
  primaryOpenOk : Bool
  /-- Whether writes to the open secondary handle succeed this call. -/
  secondaryWriteOk : Bool
deriving DecidableEq, Repr

/-- `DualFileData.sep`. -/
def sep : String := "\t"

/-- The `filename` property: `f'{prefix}{dt.strftime("%Y%j%H%M")}.txt'`. -/
def filename (cfg : Config) (env : Env) : String :=
  cfg.prefixStr ++ env.stamp ++ ".txt"

/-- `self._setflag(f)` at the object level (notification events are counted
by `setflag`; the state keeps the resulting flag set). -/
def Sys.setf (s : Sys) (f : FlagSet) : Sys :=
  { s with flags := (setflag s.flags f).1 }

/-- `self._clearflag(f)` at the object level. -/
def Sys.clearf (s : Sys) (f : FlagSet) : Sys :=
  { s with flags := (clearflag s.flags f).1 }

/-! ## `DualFileData` operations -/

namespace DFD

/-- `DualFileData.open(secondary)`.  The second component reports whether an
exception escaped the call: the primary `open` is deliberately outside any
`try` ("we want the program crash if primary file could not be opened"), so
its failure propagates; the whole secondary branch is inside
`try/except Exception`, which logs, so nothing escapes it.  When the medium
is present the secondary handle is opened on `os.path.basename(self.fprimary.name)`;
if `fprimary` is `None` at that point, evaluating `self.fprimary.name` raises
`AttributeError` after `USB` was already set, and the handler catches it. -/
def openFile (cfg : Config) (env : Env) (secondary : Bool) (s : Sys) : Sys × Bool :=
  if !secondary then
    if env.primaryOpenOk then
      let name := filename cfg env
      ({ s with fprimary := some name,
                primaryFS := s.primaryFS.touch name,
                trace := s.trace ++ [Ev.openedPrimary name] }, false)
    else
      (s, true)
  else
    if env.mediumPresent then
      let s := s.setf usbF
      match s.fprimary with
      | some p =>
        ({ s with fsecondary := some p,
                  secondaryFS := s.secondaryFS.touch p,
                  trace := s.trace ++ [Ev.openedSecondary p] }, false)
      | none => (s, false)
    else
      (s.clearf ((usbF.union dualF).union syncingF), false)

/-- `DualFileData.close()`: close whichever handles are non-`None` (each in
its own `try`, neither handle is reset to `None`), then always clear
`DUAL_WRITE` in the `finally` block. -/
def close (s : Sys) : Sys :=
  let s :=
    match s.fprimary with
    | some p => { s with trace := s.trace ++ [Ev.closedPrimary p] }
    | none => s
  let s :=
    match s.fsecondary with
    | some q => { s with trace := s.trace ++ [Ev.closedSecondary q] }
    | none => s
  s.clearf dualF

/-- `DualFileData._offload_sync`: guarded by `SYNCING_FILES` and the live
`sync_thread` slot; when idle, set `SYNCING_FILES` and start the worker
thread. -/
def offload_sync (s : Sys) : Sys :=
  let s := { s with trace := s.trace ++ [Ev.syncTriggered] }
  if s.flags.syncing_files || s.sync_thread then s
  else
    let s := s.setf syncingF
    { s with sync_thread := true, trace := s.trace ++ [Ev.startedSyncThread] }

/-- `DualFileData._offload_delete`.  NOTE: the guard in the source tests
`StateFlag.SYNCING_FILES in self._state or self.sync_thread is not None` —
the *sync* worker's flag and thread slot — not `DELETING_FILES` and
`delete_thread`; when that (sync) guard passes, set `DELETING_FILES` and
start the delete worker thread. -/
def offload_delete (s : Sys) : Sys :=
  let s := { s with trace := s.trace ++ [Ev.deleteTriggered] }
  if s.flags.syncing_files || s.sync_thread then s
  else
    let s := s.setf deletingF
    { s with delete_thread := true, trace := s.trace ++ [Ev.startedDeleteThread] }

/-- `os.DirEntry` as handed out by `os.scandir`. -/
structure DirEntry where
  name : String
  content : List String
deriving DecidableEq, Repr

/-- Python exceptions that the embedded fragments raise. -/
inductive PyError where
  | typeError
deriving DecidableEq, Repr

/-- Model of evaluating `f[-11:-8]` where `f` is an `os.DirEntry` (the
expression in `_delete`; note it is `f`, not `f.name`): `os.DirEntry` does not
support subscripting, so the expression raises
`TypeError: 'os.DirEntry' object is not subscriptable` for every entry. -/
def dirEntrySubscript (_f : DirEntry) (_lo _hi : Int) : Except PyError String :=
  Except.error PyError.typeError

/-- The per-file loop body of `DualFileData._delete`: everything is inside a
`try` whose `except` logs and moves on.  `int(f[-11:-8])` raises `TypeError`
(see `dirEntrySubscript`), so the comparison and removal below it — which,
as written in the source, would test `fdoy - doy > self.max_history` — are
never reached and the entry is skipped. -/
def deleteFile (cfg : Config) (env : Env) (s : Sys) (f : String × List String) : Sys :=
  if matchesPattern cfg.prefixStr f.1 then
    match dirEntrySubscript ⟨f.1, f.2⟩ (-11) (-8) with
    | Except.error _ => s
    | Except.ok str =>
      let fdoy := ((str.toNat?.getD 0 : Nat) : Int)
      if fdoy - (env.doy : Int) > cfg.max_history then
        { s with primaryFS := s.primaryFS.removeEntry f.1,
                 trace := s.trace ++ [Ev.deletedFile f.1] }
      else s
  else s

/-- `DualFileData._delete` (the Delete Worker body): scan the primary folder,
process each entry with `deleteFile`, then drop the thread slot and clear
`DELETING_FILES`. -/
def delete (cfg : Config) (env : Env) (s : Sys) : Sys :=
  let files := s.primaryFS
  let s := files.foldl (deleteFile cfg env) s
  let s := { s with delete_thread := false }
  s.clearf deletingF

/-- The per-file loop body of `DualFileData._sync`: for a matching entry,
copy it to the secondary folder when it is less than `max_sync` days old and
its secondary copy is missing or size-mismatched; bracket the copy of today's
file with `BUFFERING` set/clear.  When the secondary folder is gone the copy
raises and the `except` clause clears `BUFFERING`.  The `bufferingOn` /
`bufferingOff` events mark the `_setflag(BUFFERING)` / `_clearflag(BUFFERING)`
call sites. -/
def syncFile (cfg : Config) (env : Env) (s : Sys) (f : String × List String) : Sys :=
  if matchesPattern cfg.prefixStr f.1 then
    let fdoy := fileDoy f.1
    let secExists := env.mediumPresent && (s.secondaryFS.lookup f.1).isSome
    if (env.doy : Int) - fdoy < cfg.max_sync &&
        (!secExists || fileSize ((s.secondaryFS.lookup f.1).getD []) != fileSize f.2) then
      let live := (env.doy : Int) = fdoy
      let s := if live then
                 { s.setf bufferingF with trace := s.trace ++ [Ev.bufferingOn] }
               else s
      if env.mediumPresent then
        let s := { s with secondaryFS := s.secondaryFS.setEntry f.1 f.2,
                          trace := s.trace ++ [Ev.copiedFile f.1] }
        if live then
          { s.clearf bufferingF with trace := s.trace ++ [Ev.bufferingOff] }
        else s
      else
        { s.clearf bufferingF with trace := s.trace ++ [Ev.bufferingOff] }
    else s
  else s

/-- `DualFileData._sync` (the Sync Worker body): scan the primary folder,
process each entry with `syncFile`, then drop the thread slot, clear
`SYNCING_FILES` and reopen the secondary destination. -/
def sync (cfg : Config) (env : Env) (s : Sys) : Sys :=
  let files := s.primaryFS
  let s := files.foldl (syncFile cfg env) s
  let s := { s with sync_thread := false }
  let s := s.clearf syncingF
  (openFile cfg env true s).1

/-- Lines 218–226 of `write`: the day changed, so remember whether a
secondary handle was open, close both destinations, reopen the primary (a
failure here escapes `write`), record the new day, reopen the secondary if
one had been open, and call `_offload_delete`. -/
def rotate (cfg : Config) (env : Env) (s : Sys) : Sys × Bool :=
  let fsec := s.fsecondary.isSome
  let s := close s
  let r := openFile cfg env false s
  if r.2 then (r.1, true)
  else
    let s := { r.1 with fdoy := env.doy }
    let s := if fsec then (openFile cfg env true s).1 else s
    (offload_delete s, false)

/-- Lines 245–274 of `write`: the secondary path.  With the medium present:
set `USB`; skip the cycle while `SYNCING_FILES` is set; trigger the Sync
Worker when no secondary handle is open; otherwise write the flushed buffer
plus the new record to the secondary handle and set `DUAL_WRITE`.  When that
write fails, the `except` clause first evaluates `logging.WARNING("...")` —
`logging.WARNING` is the integer level constant 30, not a function — which
raises `TypeError`, so the statements that would clear `DUAL_WRITE` and drop
`fsecondary` are never executed; the outer `except Exception` catches and
logs, leaving the state as it was.  With the medium absent: clear
`USB | DUAL_WRITE | SYNCING_FILES`, drop the secondary handle and the sync
thread slot. -/
def secondaryPhase (env : Env) (s : Sys) (sbuffer : List String) (line : String) : Sys :=
  if env.mediumPresent then
    let s := s.setf usbF
    if s.flags.syncing_files then s
    else
      match s.fsecondary with
      | none => offload_sync s
      | some q =>
        let s := { s with trace := s.trace ++ [Ev.attemptedSecondaryWrite] }
        if env.secondaryWriteOk then
          let s := { s with secondaryFS := s.secondaryFS.appendTo q (sbuffer ++ [line]) }
          s.setf dualF
        else
          s
  else
    let s := s.clearf ((usbF.union dualF).union syncingF)
    let s := if s.fsecondary.isSome then { s with fsecondary := none } else s
    { s with sync_thread := false }

/-- Lines 228–274 of `write`: stamp the record; if a primary handle exists,
either buffer the record and return (when `BUFFERING` is set) or flush the
pending buffer and the new record to the primary file, remembering the
flushed lines in `sbuffer`; then run the secondary path. -/
def writeBody (env : Env) (s : Sys) (data : String) : Sys :=
  let line := env.ts ++ sep ++ data
  match s.fprimary with
  | some p =>
    if s.flags.buffering then
      { s with databuffer := s.databuffer ++ [line] }
    else
      let sbuffer := s.databuffer
      let s := { s with primaryFS := s.primaryFS.appendTo p (s.databuffer ++ [line]),
                        databuffer := [] }
      secondaryPhase env s sbuffer line
  | none =>
    secondaryPhase env s [] line

/-- `DualFileData.write(data)`.  The second component reports whether an
exception escaped the call (only the primary reopen during rotation can
raise out of `write`). -/
def write (cfg : Config) (env : Env) (s : Sys) (data : String) : Sys × Bool :=
  let r := if s.fdoy ≠ env.doy then rotate cfg env s else (s, false)
  if r.2 then (r.1, true)
  else (writeBody env r.1 data, false)

end DFD

/-- `SR620.writevalue(value)`: `self.datafile.write(value)` inside
`try/except Exception` whose handler only logs — no exception ever escapes
`writevalue`, so the second component (whether one escaped) is always
`false`. -/
def writevalue (cfg : Config) (env : Env) (s : Sys) (v : String) : Sys × Bool :=
  ((DFD.write cfg env s v).1, false)

/-! ## Specification-side definitions for the Sync Worker

These re-express, in terms of the folder contents *before* the run, what one
`_sync` pass does; `sync_run_spec` below proves the worker body equal to
them. -/

/-- The copy condition of `_sync` for one entry, read off the secondary
folder as it was before the run: the name matches the data-file pattern, the
file's day-of-year is fewer than `max_sync` days before today, and the
secondary copy is missing or size-mismatched. -/
def copyCond (cfg : Config) (env : Env) (sec0 : Folder) (f : String × List String) : Bool :=
  matchesPattern cfg.prefixStr f.1 &&
  ((env.doy : Int) - fileDoy f.1 < cfg.max_sync) &&
  (!(env.mediumPresent && (sec0.lookup f.1).isSome) ||
    fileSize ((sec0.lookup f.1).getD []) != fileSize f.2)

/-- Observable events of one entry of a sync pass: nothing unless the entry
is copied; a copy of today's (live) file is bracketed by the
`_setflag(BUFFERING)` / `_clearflag(BUFFERING)` calls. -/
def syncSeg (cfg : Config) (env : Env) (sec0 : Folder) (f : String × List String) : List Ev :=
  if copyCond cfg env sec0 f then
    (if (env.doy : Int) = fileDoy f.1 then [Ev.bufferingOn] else []) ++
    [Ev.copiedFile f.1] ++
    (if (env.doy : Int) = fileDoy f.1 then [Ev.bufferingOff] else [])
  else []

/-- The secondary folder after the copies of one sync pass. -/
def applySync (cfg : Config) (env : Env) (sec0 : Folder)
    (files : List (String × List String)) : Folder :=
  files.foldl (fun d f => if copyCond cfg env sec0 f then d.setEntry f.1 f.2 else d) sec0

/-! ## Helper lemmas -/

theorem Folder.lookup_setEntry_self (d : Folder) (n : String) (c : List String) :
    (d.setEntry n c).lookup n = some c := by
  induction d with
  | nil => simp [Folder.setEntry, Folder.lookup]
  | cons e t ih =>
    by_cases h : e.1 = n
    · simp [Folder.setEntry, Folder.lookup, h]
    · simp [Folder.setEntry, Folder.lookup, h, ih]

theorem Folder.lookup_setEntry_ne (d : Folder) (n m : String) (c : List String)
    (h : m ≠ n) : (d.setEntry n c).lookup m = d.lookup m := by
  induction d with
  | nil =>
    have hnm : n ≠ m := Ne.symm h
    simp [Folder.setEntry, Folder.lookup, hnm]
  | cons e t ih =>
    obtain ⟨a, b⟩ := e
    by_cases ha : a = n
    · subst ha
      have ham : a ≠ m := Ne.symm h
      simp [Folder.setEntry, Folder.lookup, ham]
    · by_cases ham : a = m
      · simp [Folder.setEntry, Folder.lookup, ha, ham, h]
      · simp [Folder.setEntry, Folder.lookup, ha, ham, ih]

theorem Folder.lookup_appendTo_self (d : Folder) (n : String) (ls : List String) :
    (d.appendTo n ls).lookup n = some (((d.lookup n).getD []) ++ ls) := by
  simp [Folder.appendTo, Folder.lookup_setEntry_self]

theorem FlagSet.union_diff_buffering (fl : FlagSet) (h : fl.buffering = false) :
    (fl.union bufferingF).diff bufferingF = fl := by
  cases fl
  simp_all [FlagSet.union, FlagSet.diff, bufferingF]

theorem FlagSet.diff_syncing_union_usb (fl : FlagSet) :
    (fl.diff syncingF).union usbF = { fl with usb := true, syncing_files := false } := by
  cases fl
  simp [FlagSet.union, FlagSet.diff, syncingF, usbF]

/-! ## Frame lemmas for the write path -/

theorem DFD.secondaryPhase_frame (env : Env) (s : Sys) (sb : List String) (line : String) :
    (DFD.secondaryPhase env s sb line).primaryFS = s.primaryFS ∧
    (DFD.secondaryPhase env s sb line).databuffer = s.databuffer ∧
    (DFD.secondaryPhase env s sb line).fprimary = s.fprimary ∧
    (DFD.secondaryPhase env s sb line).fdoy = s.fdoy ∧
    (DFD.secondaryPhase env s sb line).delete_thread = s.delete_thread := by
  unfold DFD.secondaryPhase
  split
  · simp only [Sys.setf]
    split
    · simp
    · split
      · simp [DFD.offload_sync, Sys.setf]
        split <;> simp
      · split <;> simp [Sys.setf]
  · simp only [Sys.clearf]
    split <;> simp

theorem DFD.secondaryPhase_fsecondary (env : Env) (s : Sys) (sb : List String)
    (line : String) (hmed : env.mediumPresent = true) :
    (DFD.secondaryPhase env s sb line).fsecondary = s.fsecondary := by
  unfold DFD.secondaryPhase
  rw [hmed]
  simp only [Sys.setf, if_true]
  split
  · rfl
  · split
    · simp [DFD.offload_sync, Sys.setf]
      split <;> simp
    · split <;> simp [Sys.setf]

theorem DFD.secondaryPhase_trace_extend (env : Env) (s : Sys) (sb : List String)
    (line : String) :
    ∃ t, (DFD.secondaryPhase env s sb line).trace = s.trace ++ t := by
  unfold DFD.secondaryPhase
  split
  · simp only [Sys.setf]
    split
    · exact ⟨[], by simp⟩
    · split
      · simp only [DFD.offload_sync, Sys.setf]
        split
        · exact ⟨[Ev.syncTriggered], by simp⟩
        · exact ⟨[Ev.syncTriggered, Ev.startedSyncThread], by simp⟩
      · split
        · exact ⟨[Ev.attemptedSecondaryWrite], by simp [Sys.setf]⟩
        · exact ⟨[Ev.attemptedSecondaryWrite], by simp⟩
  · simp only [Sys.clearf]
    split <;> exact ⟨[], by simp⟩

theorem DFD.writeBody_frame (env : Env) (s : Sys) (data : String) :
    (DFD.writeBody env s data).fprimary = s.fprimary ∧
    (DFD.writeBody env s data).fdoy = s.fdoy ∧
    (DFD.writeBody env s data).delete_thread = s.delete_thread := by
  unfold DFD.writeBody
  split
  · split
    · simp
    · exact ⟨(DFD.secondaryPhase_frame _ _ _ _).2.2.1,
             (DFD.secondaryPhase_frame _ _ _ _).2.2.2.1,
             (DFD.secondaryPhase_frame _ _ _ _).2.2.2.2⟩
  · exact ⟨(DFD.secondaryPhase_frame _ _ _ _).2.2.1,
           (DFD.secondaryPhase_frame _ _ _ _).2.2.2.1,
           (DFD.secondaryPhase_frame _ _ _ _).2.2.2.2⟩

theorem DFD.writeBody_fsecondary (env : Env) (s : Sys) (data : String)
    (hmed : env.mediumPresent = true) :
    (DFD.writeBody env s data).fsecondary = s.fsecondary := by
  unfold DFD.writeBody
  split
  · split
    · rfl
    · rw [DFD.secondaryPhase_fsecondary _ _ _ _ hmed]
  · rw [DFD.secondaryPhase_fsecondary _ _ _ _ hmed]

theorem DFD.writeBody_trace_extend (env : Env) (s : Sys) (data : String) :
    ∃ t, (DFD.writeBody env s data).trace = s.trace ++ t := by
  unfold DFD.writeBody
  split
  · split
    · exact ⟨[], by simp⟩
    · exact DFD.secondaryPhase_trace_extend env _ _ _
  · exact DFD.secondaryPhase_trace_extend env _ _ _

@[simp] theorem DFD.secondaryPhase_primaryFS (env : Env) (s : Sys) (sb : List String)
    (line : String) : (DFD.secondaryPhase env s sb line).primaryFS = s.primaryFS :=
  (DFD.secondaryPhase_frame env s sb line).1

@[simp] theorem DFD.secondaryPhase_databuffer (env : Env) (s : Sys) (sb : List String)
    (line : String) : (DFD.secondaryPhase env s sb line).databuffer = s.databuffer :=
  (DFD.secondaryPhase_frame env s sb line).2.1

@[simp] theorem DFD.secondaryPhase_fprimary (env : Env) (s : Sys) (sb : List String)
    (line : String) : (DFD.secondaryPhase env s sb line).fprimary = s.fprimary :=
  (DFD.secondaryPhase_frame env s sb line).2.2.1

@[simp] theorem DFD.secondaryPhase_fdoy (env : Env) (s : Sys) (sb : List String)
    (line : String) : (DFD.secondaryPhase env s sb line).fdoy = s.fdoy :=
  (DFD.secondaryPhase_frame env s sb line).2.2.2.1

@[simp] theorem DFD.secondaryPhase_delete_thread (env : Env) (s : Sys) (sb : List String)
    (line : String) : (DFD.secondaryPhase env s sb line).delete_thread = s.delete_thread :=
  (DFD.secondaryPhase_frame env s sb line).2.2.2.2

theorem DFD.writeBody_trace_mono (env : Env) (s : Sys) (data : String) (e : Ev)
    (h : e ∈ s.trace) : e ∈ (DFD.writeBody env s data).trace := by
  obtain ⟨t, ht⟩ := DFD.writeBody_trace_extend env s data
  rw [ht]
  exact List.mem_append_left _ h

theorem DFD.writeBody_fprimary (env : Env) (s : Sys) (data : String) :
    (DFD.writeBody env s data).fprimary = s.fprimary :=
  (DFD.writeBody_frame env s data).1

theorem DFD.writeBody_fdoy (env : Env) (s : Sys) (data : String) :
    (DFD.writeBody env s data).fdoy = s.fdoy :=
  (DFD.writeBody_frame env s data).2.1

theorem DFD.writeBody_delete_thread (env : Env) (s : Sys) (data : String) :
    (DFD.writeBody env s data).delete_thread = s.delete_thread :=
  (DFD.writeBody_frame env s data).2.2

/-- Computation of `write` in the buffering case: with no rotation due, a
primary handle open and `BUFFERING` set, the call only appends the stamped
record to `databuffer`. -/
theorem DFD.write_buffering_eq (cfg : Config) (env : Env) (s : Sys) (data p : String)
    (hday : s.fdoy = env.doy) (hbuf : s.flags.buffering = true)
    (hp : s.fprimary = some p) :
    DFD.write cfg env s data =
      ({ s with databuffer := s.databuffer ++ [env.ts ++ sep ++ data] }, false) := by
  unfold DFD.write DFD.writeBody
  simp [hday, hp, hbuf]

/-! ## Claim C5: buffering writes touch nothing but the buffer -/

/-- C5.  A `write` call made while `BUFFERING` is set and no rotation is due
(whence a primary handle is open) appends the stamped record to the pending
buffer and returns having written nothing: the primary folder, the secondary
folder, both handles, all state flags, both worker slots and the trace are
exactly as before — the full result state equals the input state with only
`databuffer` extended. -/
theorem write_buffering_appends_only (cfg : Config) (env : Env) (s : Sys)
    (data p : String) (hday : s.fdoy = env.doy) (hbuf : s.flags.buffering = true)
    (hp : s.fprimary = some p) :
    DFD.write cfg env s data =
      ({ s with databuffer := s.databuffer ++ [env.ts ++ sep ++ data] }, false) :=
  DFD.write_buffering_eq cfg env s data p hday hbuf hp

/-- Witness for C5's theorem at a concrete input. -/
theorem write_buffering_appends_only_witness :
    DFD.write ⟨"sr620-", 999, 32⟩
      { doy := 100, stamp := "20241000930", ts := "1700.5", mediumPresent := true,
        primaryOpenOk := true, secondaryWriteOk := true }
      { flags := bufferingF, fprimary := some "sr620-20241000930.txt",
        fsecondary := some "sr620-20241000930.txt", fdoy := 100,
        databuffer := ["1000.0\tv0"], sync_thread := true, delete_thread := false,
        primaryFS := [("sr620-20241000930.txt", [])], secondaryFS := [], trace := [] }
      "2.5e-9" =
      ({ flags := bufferingF, fprimary := some "sr620-20241000930.txt",
         fsecondary := some "sr620-20241000930.txt", fdoy := 100,
         databuffer := ["1000.0\tv0"] ++ ["1700.5" ++ sep ++ "2.5e-9"],
         sync_thread := true, delete_thread := false,
         primaryFS := [("sr620-20241000930.txt", [])], secondaryFS := [], trace := [] },
       false) :=
  write_buffering_appends_only _ _ _ "2.5e-9" "sr620-20241000930.txt" rfl rfl rfl

/-! ## Claim C6: buffer flush order -/

/-- C6.  A `write` call with records pending in the buffer and `BUFFERING`
clear (no rotation due) writes the buffered records, in their original
order, to the primary file followed by the new record; the buffer is then
empty; and when the secondary destination is written this cycle (medium
present, no sync running, a secondary handle open, the write succeeding) the
secondary file receives the same flushed records in the same order followed
by the new record. -/
theorem write_flushes_buffer_in_order (cfg : Config) (env : Env) (s : Sys)
    (data p q : String) (hday : s.fdoy = env.doy) (hbuf : s.flags.buffering = false)
    (hp : s.fprimary = some p) :
    ((DFD.write cfg env s data).1.primaryFS.lookup p =
      some (((s.primaryFS.lookup p).getD []) ++ s.databuffer ++ [env.ts ++ sep ++ data])) ∧
    (DFD.write cfg env s data).1.databuffer = [] ∧
    (env.mediumPresent = true → s.flags.syncing_files = false → s.fsecondary = some q →
      env.secondaryWriteOk = true →
      (DFD.write cfg env s data).1.secondaryFS.lookup q =
        some (((s.secondaryFS.lookup q).getD []) ++ s.databuffer ++ [env.ts ++ sep ++ data])) := by
  refine ⟨?_, ?_, ?_⟩
  · unfold DFD.write DFD.writeBody
    simp [hday, hp, hbuf, Folder.lookup_appendTo_self]
  · unfold DFD.write DFD.writeBody
    simp [hday, hp, hbuf]
  · intro hmed hsync hq hok
    unfold DFD.write DFD.writeBody DFD.secondaryPhase
    simp [hday, hp, hbuf, hmed, hsync, hq, hok, Sys.setf, setflag_fst,
      FlagSet.union, usbF, dualF, Folder.lookup_appendTo_self]

/-- Witness for C6's theorem at a concrete input (three buffered records,
medium present, secondary handle open, all writes succeeding). -/
theorem write_flushes_buffer_in_order_witness :
    (let env : Env :=
      { doy := 100, stamp := "20241000930", ts := "1700.5", mediumPresent := true,
        primaryOpenOk := true, secondaryWriteOk := true }
     let s : Sys :=
      { flags := usbF, fprimary := some "sr620-20241000930.txt",
        fsecondary := some "sr620-20241000930.txt", fdoy := 100,
        databuffer := ["1.0\ta", "2.0\tb", "3.0\tc"], sync_thread := false,
        delete_thread := false,
        primaryFS := [("sr620-20241000930.txt", ["0.5\tz"])],
        secondaryFS := [("sr620-20241000930.txt", ["0.5\tz"])], trace := [] }
     ((DFD.write ⟨"sr620-", 999, 32⟩ env s "d").1.primaryFS.lookup
         "sr620-20241000930.txt" =
       some (["0.5\tz"] ++ ["1.0\ta", "2.0\tb", "3.0\tc"] ++ ["1700.5" ++ sep ++ "d"])) ∧
     (DFD.write ⟨"sr620-", 999, 32⟩ env s "d").1.databuffer = [] ∧
     ((DFD.write ⟨"sr620-", 999, 32⟩ env s "d").1.secondaryFS.lookup
         "sr620-20241000930.txt" =
       some (["0.5\tz"] ++ ["1.0\ta", "2.0\tb", "3.0\tc"] ++ ["1700.5" ++ sep ++ "d"]))) := by
  refine ⟨?_, ?_, ?_⟩
  · exact (write_flushes_buffer_in_order _ _ _ "d" _ "sr620-20241000930.txt"
      rfl rfl rfl).1
  · exact (write_flushes_buffer_in_order _ _ _ "d" "sr620-20241000930.txt"
      "sr620-20241000930.txt" rfl rfl rfl).2.1
  · exact (write_flushes_buffer_in_order _ _ _ "d" _ _ rfl rfl rfl).2.2
      rfl rfl rfl rfl

/-! ## Claim C2: secondary write failure does NOT drop the handle -/

/-- Computation of `write` in the steady dual-write state when the secondary
write fails: the primary side is flushed as usual, `USB` is set, the
secondary write is attempted, and — because the `except` handler's
`logging.WARNING(...)` call raises `TypeError` before the handler's body
runs — neither is `DUAL_WRITE` cleared nor `fsecondary` dropped. -/
theorem DFD.write_secondary_fail_eq (cfg : Config) (env : Env) (s : Sys)
    (data p q : String) (hday : s.fdoy = env.doy) (hbuf : s.flags.buffering = false)
    (hp : s.fprimary = some p) (hq : s.fsecondary = some q)
    (hmed : env.mediumPresent = true) (hsync : s.flags.syncing_files = false)
    (hfail : env.secondaryWriteOk = false) :
    DFD.write cfg env s data =
      ({ s with
          flags := s.flags.union usbF,
          primaryFS := s.primaryFS.appendTo p (s.databuffer ++ [env.ts ++ sep ++ data]),
          databuffer := [],
          trace := s.trace ++ [Ev.attemptedSecondaryWrite] }, false) := by
  unfold DFD.write DFD.writeBody DFD.secondaryPhase
  simp [hday, hp, hbuf, hmed, hsync, hq, hfail, Sys.setf, setflag_fst,
    FlagSet.union, usbF]

/-- C2 (the claim is wrong about the code).  When a secondary write fails
with a secondary handle open, the bare `except` clause first evaluates
`logging.WARNING("Secondary file unaccesible.")`; `logging.WARNING` is the
integer level constant 30, so the call raises `TypeError` *before* the lines
that would clear `DUAL_WRITE` and set `self.fsecondary = None`, and the outer
`except Exception` swallows it.  Hence `DUAL_WRITE` keeps its value, the
secondary handle survives, and the very next `write` call attempts secondary
I/O again (one more attempted-secondary-write event) although the medium was
never observed re-appearing. -/
theorem write_secondary_failure_keeps_handle (cfg : Config) (env : Env) (s : Sys)
    (data p q : String) (hday : s.fdoy = env.doy) (hbuf : s.flags.buffering = false)
    (hp : s.fprimary = some p) (hq : s.fsecondary = some q)
    (hmed : env.mediumPresent = true) (hsync : s.flags.syncing_files = false)
    (hfail : env.secondaryWriteOk = false) :
    ((DFD.write cfg env s data).1.flags.dual_write = s.flags.dual_write) ∧
    ((DFD.write cfg env s data).1.fsecondary = some q) ∧
    (∀ data2,
      (DFD.write cfg env (DFD.write cfg env s data).1 data2).1.trace.count
          Ev.attemptedSecondaryWrite =
        (DFD.write cfg env s data).1.trace.count Ev.attemptedSecondaryWrite + 1) := by
  have h1 := DFD.write_secondary_fail_eq cfg env s data p q hday hbuf hp hq hmed hsync hfail
  refine ⟨by rw [h1]; simp [FlagSet.union, usbF], by rw [h1]; exact hq, ?_⟩
  intro data2
  have h2 := DFD.write_secondary_fail_eq cfg env (DFD.write cfg env s data).1 data2 p q
    (by rw [h1]; exact hday) (by rw [h1]; simp [FlagSet.union, usbF, hbuf])
    (by rw [h1]; exact hp) (by rw [h1]; exact hq) hmed
    (by rw [h1]; simp [FlagSet.union, usbF, hsync]) hfail
  rw [h2, h1]
  simp [List.count_append]

/-- Witness for C2's theorem at a concrete input: the dual-write flag was
set and a secondary handle open; the secondary write fails; the flag is
still set and the handle still present afterwards. -/
theorem write_secondary_failure_keeps_handle_witness :
    (let env : Env :=
      { doy := 100, stamp := "20241000930", ts := "1700.5", mediumPresent := true,
        primaryOpenOk := true, secondaryWriteOk := false }
     let s : Sys :=
      { flags := usbF.union dualF, fprimary := some "sr620-20241000930.txt",
        fsecondary := some "sr620-20241000930.txt", fdoy := 100, databuffer := [],
        sync_thread := false, delete_thread := false,
        primaryFS := [("sr620-20241000930.txt", [])], secondaryFS := [], trace := [] }
     (DFD.write ⟨"sr620-", 999, 32⟩ env s "d").1.flags.dual_write = true ∧
     (DFD.write ⟨"sr620-", 999, 32⟩ env s "d").1.fsecondary =
       some "sr620-20241000930.txt") := by
  have h := write_secondary_failure_keeps_handle ⟨"sr620-", 999, 32⟩
    { doy := 100, stamp := "20241000930", ts := "1700.5", mediumPresent := true,
      primaryOpenOk := true, secondaryWriteOk := false }
    { flags := usbF.union dualF, fprimary := some "sr620-20241000930.txt",
      fsecondary := some "sr620-20241000930.txt", fdoy := 100, databuffer := [],
      sync_thread := false, delete_thread := false,
      primaryFS := [("sr620-20241000930.txt", [])], secondaryFS := [], trace := [] }
    "d" "sr620-20241000930.txt" "sr620-20241000930.txt"
    rfl rfl rfl rfl rfl rfl rfl
  exact ⟨h.1, h.2.1⟩

/-! ## Claim C10: buffered records keep their original timestamps -/

/-- C10.  A record buffered while `BUFFERING` is set carries the timestamp
of the `write` call that buffered it: after `BUFFERING` is cleared, the next
`write` flushes the buffered line verbatim — the primary file ends with the
buffered line stamped with the *first* call's timestamp followed by the new
line stamped with the *second* call's timestamp. -/
theorem buffered_timestamp_preserved (cfg : Config) (env env2 : Env) (s : Sys)
    (data data2 p : String) (hday : s.fdoy = env.doy) (hday2 : s.fdoy = env2.doy)
    (hbuf : s.flags.buffering = true) (hp : s.fprimary = some p) :
    (DFD.write cfg env2 (((DFD.write cfg env s data).1).clearf bufferingF)
        data2).1.primaryFS.lookup p =
      some (((s.primaryFS.lookup p).getD []) ++ s.databuffer ++
        [env.ts ++ sep ++ data, env2.ts ++ sep ++ data2]) := by
  rw [DFD.write_buffering_eq cfg env s data p hday hbuf hp]
  unfold DFD.write DFD.writeBody
  simp [Sys.clearf, clearflag_fst, FlagSet.diff, bufferingF, hday2.symm, hp,
    Folder.lookup_appendTo_self]

/-- Witness for C10's theorem at a concrete input: the flushed line keeps
timestamp `1000.0` from the buffering call although the flushing call's
timestamp is `2000.0`. -/
theorem buffered_timestamp_preserved_witness :
    (let env : Env :=
      { doy := 100, stamp := "20241000930", ts := "1000.0", mediumPresent := false,
        primaryOpenOk := true, secondaryWriteOk := true }
     let env2 : Env :=
      { doy := 100, stamp := "20241000931", ts := "2000.0", mediumPresent := false,
        primaryOpenOk := true, secondaryWriteOk := true }
     let s : Sys :=
      { flags := bufferingF, fprimary := some "sr620-20241000930.txt",
        fsecondary := none, fdoy := 100, databuffer := [], sync_thread := true,
        delete_thread := false, primaryFS := [("sr620-20241000930.txt", [])],
        secondaryFS := [], trace := [] }
     (DFD.write ⟨"sr620-", 999, 32⟩ env2
         (((DFD.write ⟨"sr620-", 999, 32⟩ env s "a").1).clearf bufferingF)
         "b").1.primaryFS.lookup "sr620-20241000930.txt" =
       some ([] ++ [] ++ ["1000.0" ++ sep ++ "a", "2000.0" ++ sep ++ "b"])) := by
  exact buffered_timestamp_preserved _ _ _ _ "a" "b" "sr620-20241000930.txt"
    rfl rfl rfl rfl

/-! ## Claim C7: day rotation -/

/-- Computation of the rotation block when both handles are open, the medium
is present, the primary reopen succeeds and the sync worker is idle. -/
theorem DFD.rotate_spec_some (cfg : Config) (env : Env) (s : Sys) (p q : String)
    (hok : env.primaryOpenOk = true) (hmed : env.mediumPresent = true)
    (hp : s.fprimary = some p) (hq : s.fsecondary = some q)
    (hsync : s.flags.syncing_files = false) (hst : s.sync_thread = false) :
    DFD.rotate cfg env s =
      ({ s with
          flags := ((s.flags.diff dualF).union usbF).union deletingF,
          fprimary := some (filename cfg env),
          fsecondary := some (filename cfg env),
          fdoy := env.doy,
          delete_thread := true,
          primaryFS := s.primaryFS.touch (filename cfg env),
          secondaryFS := s.secondaryFS.touch (filename cfg env),
          trace := s.trace ++
            [Ev.closedPrimary p, Ev.closedSecondary q,
             Ev.openedPrimary (filename cfg env), Ev.openedSecondary (filename cfg env),
             Ev.deleteTriggered, Ev.startedDeleteThread] }, false) := by
  unfold DFD.rotate DFD.close DFD.openFile DFD.offload_delete
  simp [hp, hq, hok, hmed, hsync, hst, Sys.setf, Sys.clearf, setflag_fst,
    clearflag_fst, FlagSet.union, FlagSet.diff, usbF, dualF, deletingF]

/-- Computation of the rotation block when no secondary handle is open, the
primary reopen succeeds and the sync worker is idle. -/
theorem DFD.rotate_spec_none (cfg : Config) (env : Env) (s : Sys) (p : String)
    (hok : env.primaryOpenOk = true) (hp : s.fprimary = some p)
    (hq : s.fsecondary = none) (hsync : s.flags.syncing_files = false)
    (hst : s.sync_thread = false) :
    DFD.rotate cfg env s =
      ({ s with
          flags := (s.flags.diff dualF).union deletingF,
          fprimary := some (filename cfg env),
          fdoy := env.doy,
          delete_thread := true,
          primaryFS := s.primaryFS.touch (filename cfg env),
          trace := s.trace ++
            [Ev.closedPrimary p, Ev.openedPrimary (filename cfg env),
             Ev.deleteTriggered, Ev.startedDeleteThread] }, false) := by
  unfold DFD.rotate DFD.close DFD.openFile DFD.offload_delete
  simp [hp, hq, hok, hsync, hst, Sys.setf, Sys.clearf, setflag_fst,
    clearflag_fst, FlagSet.union, FlagSet.diff, dualF, deletingF]

/-- C7.  A `write` call whose current day-of-year differs from the recorded
one (with the primary reopen succeeding, the medium present and the sync
worker idle so the buggy-but-passing delete guard admits the trigger) closes
both open destinations, reopens the primary destination under the name built
from the new day's stamp, records the new day, reopens the secondary
destination if and only if one had been open before the rotation (under the
same new name), and triggers the Delete Worker, whose thread is started. -/
theorem write_rotation_behaviour (cfg : Config) (env : Env) (s : Sys)
    (data p : String) (hrot : s.fdoy ≠ env.doy) (hok : env.primaryOpenOk = true)
    (hmed : env.mediumPresent = true) (hp : s.fprimary = some p)
    (hsync : s.flags.syncing_files = false) (hst : s.sync_thread = false) :
    (DFD.write cfg env s data).2 = false ∧
    Ev.closedPrimary p ∈ (DFD.write cfg env s data).1.trace ∧
    (∀ q, s.fsecondary = some q →
      Ev.closedSecondary q ∈ (DFD.write cfg env s data).1.trace) ∧
    Ev.openedPrimary (filename cfg env) ∈ (DFD.write cfg env s data).1.trace ∧
    (DFD.write cfg env s data).1.fprimary = some (filename cfg env) ∧
    (DFD.write cfg env s data).1.fdoy = env.doy ∧
    (s.fsecondary.isSome = true →
      (DFD.write cfg env s data).1.fsecondary = some (filename cfg env)) ∧
    (s.fsecondary = none → (DFD.write cfg env s data).1.fsecondary = none) ∧
    Ev.deleteTriggered ∈ (DFD.write cfg env s data).1.trace ∧
    Ev.startedDeleteThread ∈ (DFD.write cfg env s data).1.trace ∧
    (DFD.write cfg env s data).1.delete_thread = true := by
  cases hq : s.fsecondary with
  | some q =>
    have hr := DFD.rotate_spec_some cfg env s p q hok hmed hp hq hsync hst
    have hw1 : (DFD.write cfg env s data).1 =
        DFD.writeBody env (DFD.rotate cfg env s).1 data := by
      unfold DFD.write
      rw [hr]
      simp [hrot]
    have hw2 : (DFD.write cfg env s data).2 = false := by
      unfold DFD.write
      rw [hr]
      simp [hrot]
    refine ⟨hw2, ?_, ?_, ?_, ?_, ?_, ?_, ?_, ?_, ?_, ?_⟩
    · rw [hw1]
      refine DFD.writeBody_trace_mono _ _ _ _ ?_
      rw [hr]; simp
    · intro q2 hq2
      cases hq2
      rw [hw1]
      refine DFD.writeBody_trace_mono _ _ _ _ ?_
      rw [hr]; simp
    · rw [hw1]
      refine DFD.writeBody_trace_mono _ _ _ _ ?_
      rw [hr]; simp
    · simp [hw1, DFD.writeBody_fprimary, hr]
    · simp [hw1, DFD.writeBody_fdoy, hr]
    · intro _
      simp [hw1, DFD.writeBody_fsecondary, hmed, hr]
    · intro hcon
      simp at hcon
    · rw [hw1]
      refine DFD.writeBody_trace_mono _ _ _ _ ?_
      rw [hr]; simp
    · rw [hw1]
      refine DFD.writeBody_trace_mono _ _ _ _ ?_
      rw [hr]; simp
    · simp [hw1, DFD.writeBody_delete_thread, hr]
  | none =>
    have hr := DFD.rotate_spec_none cfg env s p hok hp hq hsync hst
    have hw1 : (DFD.write cfg env s data).1 =
        DFD.writeBody env (DFD.rotate cfg env s).1 data := by
      unfold DFD.write
      rw [hr]
      simp [hrot]
    have hw2 : (DFD.write cfg env s data).2 = false := by
      unfold DFD.write
      rw [hr]
      simp [hrot]
    refine ⟨hw2, ?_, ?_, ?_, ?_, ?_, ?_, ?_, ?_, ?_, ?_⟩
    · rw [hw1]
      refine DFD.writeBody_trace_mono _ _ _ _ ?_
      rw [hr]; simp
    · intro q2 hq2
      cases hq2
    · rw [hw1]
      refine DFD.writeBody_trace_mono _ _ _ _ ?_
      rw [hr]; simp
    · simp [hw1, DFD.writeBody_fprimary, hr]
    · simp [hw1, DFD.writeBody_fdoy, hr]
    · intro hcon
      simp at hcon
    · intro _
      simp [hw1, DFD.writeBody_fsecondary, hmed, hr, hq]
    · rw [hw1]
      refine DFD.writeBody_trace_mono _ _ _ _ ?_
      rw [hr]; simp
    · rw [hw1]
      refine DFD.writeBody_trace_mono _ _ _ _ ?_
      rw [hr]; simp
    · simp [hw1, DFD.writeBody_delete_thread, hr]

/-- Witness for C7's theorem at a concrete input (a day change from 100 to
101 with a secondary handle open). -/
theorem write_rotation_behaviour_witness :
    (let env : Env :=
      { doy := 101, stamp := "20241010001", ts := "1800.0", mediumPresent := true,
        primaryOpenOk := true, secondaryWriteOk := true }
     let s : Sys :=
      { flags := usbF.union dualF, fprimary := some "sr620-20241000930.txt",
        fsecondary := some "sr620-20241000930.txt", fdoy := 100, databuffer := [],
        sync_thread := false, delete_thread := false,
        primaryFS := [("sr620-20241000930.txt", ["0.5\tz"])],
        secondaryFS := [("sr620-20241000930.txt", ["0.5\tz"])], trace := [] }
     (DFD.write ⟨"sr620-", 999, 32⟩ env s "d").1.fprimary =
         some "sr620-20241010001.txt" ∧
       (DFD.write ⟨"sr620-", 999, 32⟩ env s "d").1.fdoy = 101 ∧
       (DFD.write ⟨"sr620-", 999, 32⟩ env s "d").1.fsecondary =
         some "sr620-20241010001.txt" ∧
       Ev.startedDeleteThread ∈ (DFD.write ⟨"sr620-", 999, 32⟩ env s "d").1.trace) := by
  have h := write_rotation_behaviour ⟨"sr620-", 999, 32⟩
    { doy := 101, stamp := "20241010001", ts := "1800.0", mediumPresent := true,
      primaryOpenOk := true, secondaryWriteOk := true }
    { flags := usbF.union dualF, fprimary := some "sr620-20241000930.txt",
      fsecondary := some "sr620-20241000930.txt", fdoy := 100, databuffer := [],
      sync_thread := false, delete_thread := false,
      primaryFS := [("sr620-20241000930.txt", ["0.5\tz"])],
      secondaryFS := [("sr620-20241000930.txt", ["0.5\tz"])], trace := [] }
    "d" "sr620-20241000930.txt" (by decide) rfl rfl rfl rfl rfl
  exact ⟨h.2.2.2.2.1, h.2.2.2.2.2.1, h.2.2.2.2.2.2.1 rfl, h.2.2.2.2.2.2.2.2.2.1⟩

/-! ## Claim C9: the Sync Worker run -/

theorem DFD.syncFile_spec (cfg : Config) (env : Env) (s : Sys) (f : String × List String)
    (hmed : env.mediumPresent = true) (hbuf : s.flags.buffering = false) :
    DFD.syncFile cfg env s f =
      { s with
        secondaryFS := if copyCond cfg env s.secondaryFS f then
            s.secondaryFS.setEntry f.1 f.2
          else s.secondaryFS,
        trace := s.trace ++ syncSeg cfg env s.secondaryFS f } := by
  by_cases hm : matchesPattern cfg.prefixStr f.1 = true <;>
  by_cases hW : (env.doy : Int) - fileDoy f.1 < cfg.max_sync <;>
  by_cases hS : (s.secondaryFS.lookup f.1).isSome = true <;>
  by_cases hZ : fileSize ((s.secondaryFS.lookup f.1).getD []) = fileSize f.2 <;>
  by_cases hlive : (env.doy : Int) = fileDoy f.1 <;>
  simp [DFD.syncFile, syncSeg, copyCond, hm, hW, hS, hZ, hlive, hmed, hbuf, bne,
    Sys.setf, Sys.clearf, setflag_fst, clearflag_fst,
    FlagSet.union_diff_buffering s.flags hbuf, List.append_assoc] <;>
  split <;>
  simp_all [List.append_assoc]

theorem DFD.syncFold (cfg : Config) (env : Env) (hmed : env.mediumPresent = true) :
    ∀ (files : List (String × List String)) (sec0 : Folder) (s : Sys),
      (files.map Prod.fst).Nodup →
      (∀ f ∈ files, s.secondaryFS.lookup f.1 = sec0.lookup f.1) →
      s.flags.buffering = false →
      files.foldl (DFD.syncFile cfg env) s =
        { s with
          secondaryFS := files.foldl
            (fun d f => if copyCond cfg env sec0 f then d.setEntry f.1 f.2 else d)
            s.secondaryFS,
          trace := s.trace ++ (files.map (syncSeg cfg env sec0)).flatten } := by
  intro files
  induction files with
  | nil =>
    intro sec0 s _ _ _
    simp
  | cons f t ih =>
    intro sec0 s hnd hagree hbuf
    rcases List.nodup_cons.mp hnd with ⟨hfn, hnd2⟩
    have hf1 : s.secondaryFS.lookup f.1 = sec0.lookup f.1 :=
      hagree f (List.mem_cons_self f t)
    have hcc : copyCond cfg env s.secondaryFS f = copyCond cfg env sec0 f := by
      unfold copyCond
      rw [hf1]
    have hseg : syncSeg cfg env s.secondaryFS f = syncSeg cfg env sec0 f := by
      unfold syncSeg
      rw [hcc]
    have hag2 : ∀ g ∈ t,
        ({ s with
            secondaryFS := if copyCond cfg env sec0 f then
                s.secondaryFS.setEntry f.1 f.2
              else s.secondaryFS,
            trace := s.trace ++ syncSeg cfg env sec0 f } : Sys).secondaryFS.lookup g.1 =
          sec0.lookup g.1 := by
      intro g hg
      have hne : g.1 ≠ f.1 := by
        intro hgf
        exact hfn (hgf ▸ List.mem_map_of_mem Prod.fst hg)
      by_cases hc : copyCond cfg env sec0 f = true
      · simp only [hc, if_true]
        rw [Folder.lookup_setEntry_ne _ _ _ _ hne]
        exact hagree g (List.mem_cons_of_mem f hg)
      · simp only [hc, if_false]
        exact hagree g (List.mem_cons_of_mem f hg)
    have hIH := ih sec0
      { s with
        secondaryFS := if copyCond cfg env sec0 f then
            s.secondaryFS.setEntry f.1 f.2
          else s.secondaryFS,
        trace := s.trace ++ syncSeg cfg env sec0 f } hnd2 hag2 hbuf
    rw [List.foldl_cons, DFD.syncFile_spec cfg env s f hmed hbuf, hcc, hseg, hIH]
    simp [List.append_assoc]

/-- Amended C9.  During a Sync Worker run (medium present, primary handle
open on today's file, distinct primary file names, `BUFFERING` initially
clear): a primary-store file is copied to the secondary folder if and only
if its name matches the pattern, its day-of-year is *fewer than* `max_sync`
days before today's, and its secondary copy is missing or size-mismatched
(`copyCond`/`applySync`); the copy of today's (live) file — and only it —
is bracketed by the `BUFFERING` set and clear calls (`syncSeg`); and on
completion `SYNCING_FILES` is cleared, the thread slot is dropped and the
secondary destination is reopened for today's file. -/
theorem sync_run_spec (cfg : Config) (env : Env) (s : Sys) (p : String)
    (hmed : env.mediumPresent = true) (hnd : (s.primaryFS.map Prod.fst).Nodup)
    (hp : s.fprimary = some p) (hbuf : s.flags.buffering = false) :
    DFD.sync cfg env s =
      { s with
        flags := { s.flags with usb := true, syncing_files := false },
        fsecondary := some p,
        sync_thread := false,
        secondaryFS := (applySync cfg env s.secondaryFS s.primaryFS).touch p,
        trace := s.trace ++ (s.primaryFS.map (syncSeg cfg env s.secondaryFS)).flatten
          ++ [Ev.openedSecondary p] } := by
  simp only [DFD.sync]
  rw [DFD.syncFold cfg env hmed s.primaryFS s.secondaryFS s hnd (fun f _ => rfl) hbuf]
  unfold DFD.openFile applySync
  simp [hmed, hp, Sys.setf, Sys.clearf, setflag_fst, clearflag_fst,
    FlagSet.diff_syncing_union_usb, List.append_assoc]

/-- C9 as stated is false on the code at the `max_sync` boundary: with
`max_sync = 2` and today = day 010, the file `sr620-20240082359.txt` is
dated day 008 — within 2 days of today — and is missing from the secondary
folder, yet the Sync Worker run does not copy it, because the source tests
`doy - fdoy < max_sync` (strict), which excludes the boundary file. -/
theorem sync_boundary_file_skipped :
    ((DFD.sync ⟨"sr620-", 999, 2⟩
        { doy := 10, stamp := "20240102359", ts := "t", mediumPresent := true,
          primaryOpenOk := true, secondaryWriteOk := true }
        { flags := syncingF, fprimary := some "sr620-20240102359.txt",
          fsecondary := none, fdoy := 10, databuffer := [], sync_thread := true,
          delete_thread := false,
          primaryFS := [("sr620-20240082359.txt", ["x"])], secondaryFS := [],
          trace := [] }).secondaryFS.lookup "sr620-20240082359.txt" = none) ∧
    (Ev.copiedFile "sr620-20240082359.txt" ∉
      (DFD.sync ⟨"sr620-", 999, 2⟩
        { doy := 10, stamp := "20240102359", ts := "t", mediumPresent := true,
          primaryOpenOk := true, secondaryWriteOk := true }
        { flags := syncingF, fprimary := some "sr620-20240102359.txt",
          fsecondary := none, fdoy := 10, databuffer := [], sync_thread := true,
          delete_thread := false,
          primaryFS := [("sr620-20240082359.txt", ["x"])], secondaryFS := [],
          trace := [] }).trace) := by
  decide

/-- Witness for the amended C9 theorem at a concrete input: a live file and
a three-day-old file, both missing from the secondary folder, plus a
non-matching file. -/
theorem sync_run_spec_witness :
    (let cfg : Config := ⟨"sr620-", 999, 5⟩
     let env : Env :=
      { doy := 10, stamp := "20240102359", ts := "t", mediumPresent := true,
        primaryOpenOk := true, secondaryWriteOk := true }
     let s : Sys :=
      { flags := syncingF, fprimary := some "sr620-20240102359.txt",
        fsecondary := none, fdoy := 10, databuffer := [], sync_thread := true,
        delete_thread := false,
        primaryFS := [("sr620-20240102359.txt", ["a"]),
                      ("sr620-20240072359.txt", ["b"]), ("notes.txt", ["n"])],
        secondaryFS := [], trace := [] }
     (s.primaryFS.map Prod.fst).Nodup ∧
     DFD.sync cfg env s =
      { s with
        flags := { s.flags with usb := true, syncing_files := false },
        fsecondary := some "sr620-20240102359.txt",
        sync_thread := false,
        secondaryFS := (applySync cfg env s.secondaryFS s.primaryFS).touch
          "sr620-20240102359.txt",
        trace := s.trace ++ (s.primaryFS.map (syncSeg cfg env s.secondaryFS)).flatten
          ++ [Ev.openedSecondary "sr620-20240102359.txt"] }) := by
  refine ⟨by decide, ?_⟩
  exact sync_run_spec _ _ _ "sr620-20240102359.txt" rfl (by decide) rfl rfl

/-! ## Claim C8: state-flag mutation discipline -/

/-- C8.  `_setflag` is a no-op with no notification when the requested flags
are already all set, and otherwise unions them in with exactly one
notification; `_clearflag` is a no-op with no notification when none of the
requested flags is set, and otherwise drops the requested flags with exactly
one notification — regardless of how many individual member flags the call
flips; and each notification invokes every registered observer exactly
once. -/
theorem flags_set_clear_spec :
    (∀ s f : FlagSet, setflag s f = if f.subset s then (s, 0) else (s.union f, 1)) ∧
    (∀ s f : FlagSet, clearflag s f = if f.interNonempty s then (s.diff f, 1) else (s, 0)) ∧
    (∀ ls : List Nat, notify_newstate ls = ls) :=
  ⟨by decide, by decide, fun _ => rfl⟩

/-! ## Claim C1: the Delete Worker deletes nothing -/

theorem DFD.deleteFile_primaryFS (cfg : Config) (env : Env) (s : Sys)
    (f : String × List String) :
    (DFD.deleteFile cfg env s f).primaryFS = s.primaryFS := by
  unfold DFD.deleteFile dirEntrySubscript
  split <;> rfl

theorem DFD.foldl_deleteFile_primaryFS (cfg : Config) (env : Env) :
    ∀ (l : List (String × List String)) (s : Sys),
      (l.foldl (DFD.deleteFile cfg env) s).primaryFS = s.primaryFS := by
  intro l
  induction l with
  | nil => intro s; rfl
  | cons f t ih =>
    intro s
    rw [List.foldl_cons, ih, DFD.deleteFile_primaryFS]

/-- C1 (the claim is wrong about the code: this theorem evaluates the code's
Delete Worker).  `_delete` computes `int(f[-11:-8])` on the `os.DirEntry`
object itself instead of on `f.name`; subscripting a `DirEntry` raises
`TypeError`, which the per-file `except` clause catches and logs, so the
worker removes no file at all — in particular a file dated `max_history + 1`
days before today is retained, contradicting the claim.  (Even absent that
error, the comparison in the source is `fdoy - doy > max_history`, the
reverse of the claimed `doy - fdoy > max_history`.) -/
theorem delete_removes_no_file (cfg : Config) (env : Env) (s : Sys) :
    (DFD.delete cfg env s).primaryFS = s.primaryFS := by
  unfold DFD.delete
  simp only [Sys.clearf]
  exact DFD.foldl_deleteFile_primaryFS cfg env s.primaryFS s

/-! ## Claim C3: worker mutual exclusion -/

/-- C3 (the claim is wrong about the code).  `_offload_delete`'s guard tests
the *Sync* worker's state (`SYNCING_FILES in self._state or self.sync_thread
is not None`) instead of the Delete Worker's own `DELETING_FILES` /
`delete_thread`: whenever no sync worker is active, the call starts a new
delete thread — even while a delete worker is already alive (its
`DELETING_FILES` flag set and its `delete_thread` slot non-`None`), so
"trigger while running" is not a no-op for the delete kind. -/
theorem offload_delete_starts_second_delete (s : Sys)
    (h1 : s.flags.syncing_files = false) (h2 : s.sync_thread = false) :
    DFD.offload_delete s =
      { s.setf deletingF with
        delete_thread := true,
        trace := s.trace ++ [Ev.deleteTriggered, Ev.startedDeleteThread] } := by
  unfold DFD.offload_delete
  simp [h1, h2, Sys.setf]

/-- Witness for C3's theorem: in a state where a delete worker is alive
(`DELETING_FILES` set and the thread slot occupied) and the sync worker is
idle, triggering `_offload_delete` starts a second delete thread. -/
theorem offload_delete_starts_second_delete_witness :
    (let s : Sys :=
      { flags := deletingF, fprimary := none, fsecondary := none, fdoy := 0,
        databuffer := [], sync_thread := false, delete_thread := true,
        primaryFS := [], secondaryFS := [], trace := [] }
     s.delete_thread = true ∧ s.flags.deleting_files = true ∧
       (DFD.offload_delete s).trace = [Ev.deleteTriggered, Ev.startedDeleteThread]) := by
  refine ⟨rfl, rfl, ?_⟩
  rw [offload_delete_starts_second_delete _ rfl rfl]
  rfl

/-! ## Claim C4: primary open failure is swallowed by writevalue -/

/-- C4 (the claim is wrong about the code).  When the primary destination
cannot be opened, the exception does escape `DualFileData.open` and
`DualFileData.write` uncaught (matching the source comment "we want the
program crash if primary file could not be opened") — but
`SR620.writevalue` wraps the write in a blanket `except Exception` that only
logs, exactly as secondary-destination errors are handled, so the exception
never escapes `writevalue` and the process does not terminate. -/
theorem writevalue_swallows_primary_open_failure (cfg : Config) (env : Env)
    (s : Sys) (v : String) (hfail : env.primaryOpenOk = false)
    (hrot : s.fdoy ≠ env.doy) :
    (DFD.openFile cfg env false (DFD.close s)).2 = true ∧
    (DFD.write cfg env s v).2 = true ∧
    (writevalue cfg env s v).2 = false := by
  refine ⟨?_, ?_, rfl⟩
  · simp [DFD.openFile, hfail]
  · simp [DFD.write, DFD.rotate, hrot, DFD.openFile, hfail]

/-- Witness for C4's theorem at a concrete input. -/
theorem writevalue_swallows_primary_open_failure_witness :
    (let s : Sys :=
      { flags := noneF, fprimary := none, fsecondary := none, fdoy := 0,
        databuffer := [], sync_thread := false, delete_thread := false,
        primaryFS := [], secondaryFS := [], trace := [] }
     let env : Env :=
      { doy := 100, stamp := "20241001234", ts := "1700000000.0",
        mediumPresent := false, primaryOpenOk := false, secondaryWriteOk := true }
     (DFD.write ⟨"sr620-", 999, 32⟩ env s "1.23e-9").2 = true ∧
       (writevalue ⟨"sr620-", 999, 32⟩ env s "1.23e-9").2 = false) := by
  have h := writevalue_swallows_primary_open_failure ⟨"sr620-", 999, 32⟩
    { doy := 100, stamp := "20241001234", ts := "1700000000.0",
      mediumPresent := false, primaryOpenOk := false, secondaryWriteOk := true }
    { flags := noneF, fprimary := none, fsecondary := none, fdoy := 0,
      databuffer := [], sync_thread := false, delete_thread := false,
      primaryFS := [], secondaryFS := [], trace := [] }
    "1.23e-9" rfl (by decide)
  exact ⟨h.2.1, h.2.2⟩

end SR620V
